import Mathlib

/-!
# Verification of the ramp-metering control core

Shallow embedding of the cyclic ramp-metering controller: the static `clip`
helper of `SumoEnv`, the ALINEA and PI-ALINEA feedback controllers from
`baselines.py`, the detector aggregation helpers from `sumo_env.py`, the
spillback penalty and cycle timing of the learned-policy driver from
`rl_controller_macro_lane.py`, and the tick-failure propagation of the
episode driver.  All floating-point quantities are modelled over `ℚ`; every
numeric literal appearing below is exactly representable in binary floating
point or only compared, so the rational model is faithful for the properties
proved here.
-/

namespace RMC

/-- `SumoEnv.clip` (sumo_env.py:63-65):
`max(min_clip, min([max_clip, x])) if min_clip < max_clip else x`. -/
def clip (min_clip max_clip x : ℚ) : ℚ :=
  if min_clip < max_clip then max min_clip (min max_clip x) else x

/-- `np.clip(x, lo, hi)`: numpy clamps by applying the lower bound first,
then the upper bound, i.e. `min hi (max lo x)`. -/
def npClip (x lo hi : ℚ) : ℚ :=
  min hi (max lo x)

/-! ## Controller constants (`AlineaDsBaseline.__init__`, baselines.py:162-183,
and `PiAlineaDsBaseline.__init__` defaults, baselines.py:300-326). -/

def CYCLE_LENGTH_SEC : ℚ := 40
def CRITICAL_OCCUPANCY_PERCENT : ℚ := 33/2
def KR : ℚ := 60
def KP : ℚ := 60
def KI : ℚ := 20
def MIN_METERING_RATE_VPH : ℚ := 180
def MAX_METERING_RATE_VPH : ℚ := 1800
def MIN_GREEN_TIME_SEC : ℚ := 3
def MIN_RED_TIME_SEC : ℚ := 0
def RAMP_SATURATION_FLOW_VPS : ℚ := 1/2

/-! ## ALINEA (`AlineaDsBaseline`, baselines.py:162-279) -/

/-- ALINEA controller state persisting across cycles. -/
structure AlineaState where
  current_metering_rate_vph : ℚ
  current_green_time_sec_alinea : ℚ
  current_red_time_sec_alinea : ℚ
deriving DecidableEq, Repr

/-- Rate update of `_perform_alinea_update_and_set_phases`
(baselines.py:220-223): `new = rate + KR*(crit - occ)` then
`new = max(MIN, min(new, MAX))`. -/
def alineaNewRate (rate measured_occupancy_percent : ℚ) : ℚ :=
  max MIN_METERING_RATE_VPH
    (min (rate + KR * (CRITICAL_OCCUPANCY_PERCENT - measured_occupancy_percent))
      MAX_METERING_RATE_VPH)

/-- Green-time computation of `_perform_alinea_update_and_set_phases`
(baselines.py:226-234): vehicles per cycle at the new rate, divided by the
saturation flow, guarded by `sat_flow <= 0`, clipped to
`[MIN_GREEN, CYCLE - MIN_RED]` via `max(MIN_GREEN, min(tg, CYCLE - MIN_RED))`. -/
def alineaGreenTime (rate : ℚ) : ℚ :=
  let vehs_per_cycle := rate * (CYCLE_LENGTH_SEC / 3600)
  let calculated_tg_sec :=
    if RAMP_SATURATION_FLOW_VPS ≤ 0 then MIN_GREEN_TIME_SEC
    else vehs_per_cycle / RAMP_SATURATION_FLOW_VPS
  max MIN_GREEN_TIME_SEC (min calculated_tg_sec (CYCLE_LENGTH_SEC - MIN_RED_TIME_SEC))

/-- One ALINEA decision (`_perform_alinea_update_and_set_phases`,
baselines.py:217-242): update the rate from the measured occupancy, derive
the green split, and set red to the remainder of the cycle. -/
def alineaUpdate (s : AlineaState) (measured_occupancy_percent : ℚ) : AlineaState :=
  let newRate := alineaNewRate s.current_metering_rate_vph measured_occupancy_percent
  let green := alineaGreenTime newRate
  { current_metering_rate_vph := newRate
    current_green_time_sec_alinea := green
    current_red_time_sec_alinea := CYCLE_LENGTH_SEC - green }

/-! ## PI-ALINEA (`PiAlineaDsBaseline`, baselines.py:282-443) -/

/-- PI-ALINEA controller state persisting across cycles;
`prev_measured_downstream_occ` is the lag term O(k-2). -/
structure PiAlineaState where
  current_metering_rate_vph : ℚ
  prev_measured_downstream_occ : ℚ
  current_green_time_sec : ℚ
  current_red_time_sec : ℚ
deriving DecidableEq, Repr

/-- Unclipped rate change of `_perform_pialinea_update_and_set_phases`
(baselines.py:370-372): `KP*(O(k-2) - O(k-1)) + KI*(crit - O(k-1))`. -/
def piAlineaRateChange (prevOcc currentOcc : ℚ) : ℚ :=
  KP * (prevOcc - currentOcc) + KI * (CRITICAL_OCCUPANCY_PERCENT - currentOcc)

/-- The unclipped PI-ALINEA update falls outside the admissible rate band
(the `np.clip` at baselines.py:374-378 saturates). -/
def piAlineaSaturates (s : PiAlineaState) (currentOcc : ℚ) : Prop :=
  s.current_metering_rate_vph + piAlineaRateChange s.prev_measured_downstream_occ currentOcc
      < MIN_METERING_RATE_VPH ∨
  MAX_METERING_RATE_VPH <
    s.current_metering_rate_vph + piAlineaRateChange s.prev_measured_downstream_occ currentOcc

instance (s : PiAlineaState) (occ : ℚ) : Decidable (piAlineaSaturates s occ) := by
  unfold piAlineaSaturates; infer_instance

/-- One PI-ALINEA decision (`_perform_pialinea_update_and_set_phases`,
baselines.py:362-403): clip the updated rate with `np.clip`, then
unconditionally advance the lag term (`self.prev_measured_downstream_occ =
current_occupancy`, baselines.py:382), then derive the green/red split. -/
def piAlineaUpdate (s : PiAlineaState) (currentOcc : ℚ) : PiAlineaState :=
  let rate_change := piAlineaRateChange s.prev_measured_downstream_occ currentOcc
  let newRate := npClip (s.current_metering_rate_vph + rate_change)
    MIN_METERING_RATE_VPH MAX_METERING_RATE_VPH
  let vehs_per_cycle := newRate * (CYCLE_LENGTH_SEC / 3600)
  let calculated_tg_sec :=
    if RAMP_SATURATION_FLOW_VPS ≤ 0 then MIN_GREEN_TIME_SEC
    else vehs_per_cycle / RAMP_SATURATION_FLOW_VPS
  let green := npClip calculated_tg_sec MIN_GREEN_TIME_SEC
    (CYCLE_LENGTH_SEC - MIN_RED_TIME_SEC)
  { current_metering_rate_vph := newRate
    prev_measured_downstream_occ := currentOcc
    current_green_time_sec := green
    current_red_time_sec := CYCLE_LENGTH_SEC - green }

/-! ## Traffic-light phase commands (`SumoEnv.set_phase`, sumo_env.py:367-368) -/

/-- Model of the ramp-meter signal together with a count of the phase-set
commands forwarded to the simulator. -/
structure TrafficLight where
  phase : ℤ
  setPhaseCalls : ℕ
deriving DecidableEq, Repr

/-- `SumoEnv.set_phase` (sumo_env.py:367-368) forwards
`traci.trafficlight.setPhase(tl_id, phase_index)` unconditionally: it never
inspects the currently active phase before issuing the command. -/
def set_phase (tl : TrafficLight) (phase_index : ℤ) : TrafficLight :=
  { phase := phase_index, setPhaseCalls := tl.setPhaseCalls + 1 }

/-! ## Learned-policy driver cycle timing (`RLController.step`,
rl_controller_macro_lane.py:209-218) -/

/-- `self.green_time_actions_sec = np.array([5,10,15,20,25,30,35,40])`
(rl_controller_macro_lane.py:17). -/
def green_time_actions_sec : List ℚ := [5, 10, 15, 20, 25, 30, 35, 40]

/-- Invalid-action clamp (rl_controller_macro_lane.py:210-212):
`np.clip(action_index, 0, action_space_n - 1)`; over `ℕ` the lower clamp is
vacuous so this is `min i (n-1)`. -/
def clampActionIndex (i : ℕ) : ℕ :=
  min i (green_time_actions_sec.length - 1)

/-- `chosen_green_time_sec = self.green_time_actions_sec[action_index]`
(rl_controller_macro_lane.py:214) after clamping. -/
def rlChosenGreen (i : ℕ) : ℚ :=
  green_time_actions_sec.getD (clampActionIndex i) 0

/-- `red_time_sec = CYCLE - green; if red_time_sec < 0: red_time_sec = 0.0`
(rl_controller_macro_lane.py:217-218). -/
def rlRedTime (green : ℚ) : ℚ :=
  let red := CYCLE_LENGTH_SEC - green
  if red < 0 then 0 else red

/-! ## Spillback penalty (`RLController._penalty_spillback`,
rl_controller_macro_lane.py:368-383) -/

/-- `MAX_RAMP_QUEUE_VEH` default (sumo_env.py:103). -/
def MAX_RAMP_QUEUE_VEH : ℚ := 25

/-- `_penalty_spillback` over the aggregated ramp queue: zero at or below the
90% threshold (the code tests `queue > threshold` strictly), otherwise
`-np.clip((queue - threshold)/denominator, 0, 1)` where the denominator is
`max_queue - threshold` floored at `1e-6`. -/
def penalty_spillback (max_queue queue : ℚ) : ℚ :=
  let spillback_threshold_veh := (9/10) * max_queue
  let denominator0 := max_queue - spillback_threshold_veh
  let denominator := if denominator0 < 1/1000000 then 1/1000000 else denominator0
  let spill_amount := (queue - spillback_threshold_veh) / denominator
  if spillback_threshold_veh < queue then -(npClip spill_amount 0 1) else 0

/-! ## Detector aggregation (`SumoEnv`, sumo_env.py:400-474)

Each traci query of one loop can fail with a `TraCIException`, which the code
catches and skips; a per-loop reading is therefore an `Option`. -/

/-- `get_loops_flow_interval` (sumo_env.py:400-410): returns `0.0` for an
empty id list or non-positive interval; otherwise sums the per-loop interval
vehicle counts over the successful queries and extrapolates to veh/h, with
`0.0` when no query succeeded. -/
def get_loops_flow_interval (readings : List (Option ℕ))
    (interval_duration_sec : ℚ) : ℚ :=
  if readings.isEmpty ∨ interval_duration_sec ≤ 0 then 0
  else
    let valid := readings.filterMap id
    if 0 < valid.length then ((valid.sum : ℚ) * 3600) / interval_duration_sec
    else 0

/-- `get_loops_occupancy_interval` (sumo_env.py:417-427): returns `0.0` for an
empty id list; otherwise averages the per-loop interval occupancies over the
successful queries, with `0.0` when no query succeeded. -/
def get_loops_occupancy_interval (readings : List (Option ℚ)) : ℚ :=
  if readings.isEmpty then 0
  else
    let valid := readings.filterMap id
    if 0 < valid.length then valid.sum / (valid.length : ℚ) else 0

/-- One loop's last-step data for the flow-weighted mean speed:
`getLastStepVehicleNumber` and `getLastStepMeanSpeed` (the latter is `-1`
when no vehicle passed). -/
structure LoopLastStep where
  flow : ℕ
  speed : ℚ
deriving DecidableEq, Repr

/-- Accumulator loop of `get_loops_flow_weigthed_mean_speed`
(sumo_env.py:464-472): failed queries are skipped; a successful reading
contributes only `if flow > 0 and speed >= 0`. -/
def fwms_totals (readings : List (Option LoopLastStep)) : ℚ × ℚ :=
  readings.foldl
    (fun acc o =>
      match o with
      | none => acc
      | some r =>
          if 0 < r.flow ∧ 0 ≤ r.speed then
            (acc.1 + r.speed * (r.flow : ℚ), acc.2 + (r.flow : ℚ))
          else acc)
    (0, 0)

/-- `get_loops_flow_weigthed_mean_speed` (sumo_env.py:455-474): `0.0` for an
empty id list; otherwise `total_speed / total_flow` when `total_flow > 0`,
else `0.0`. -/
def get_loops_flow_weigthed_mean_speed (readings : List (Option LoopLastStep)) : ℚ :=
  if readings.isEmpty then 0
  else
    let totals := fwms_totals readings
    if 0 < totals.2 then totals.1 / totals.2 else 0

/-! ## ALINEA downstream occupancy fallback
(`AlineaDsBaseline._get_downstream_occupancy`, baselines.py:209-215) -/

/-- `_get_downstream_occupancy`: when the controller found no downstream
detectors (`if not self.downstream_detector_ids`), the critical occupancy is
substituted without querying; otherwise the interval occupancy of the group
is returned.  `ids` is the detector id list and `readings` the per-loop
interval occupancies for it. -/
def getDownstreamOccupancy (ids : List String) (readings : List (Option ℚ)) : ℚ :=
  if ids.isEmpty then CRITICAL_OCCUPANCY_PERCENT
  else get_loops_occupancy_interval readings

/-- The metering rate after `n` ALINEA decisions when no downstream detector
exists: the rate starts at the reset midpoint
`(MIN + MAX)/2` (baselines.py:193) and each decision applies the ALINEA
update to the substituted occupancy. -/
def alineaRateNoDetectors : ℕ → ℚ
  | 0 => (MIN_METERING_RATE_VPH + MAX_METERING_RATE_VPH) / 2
  | n + 1 => alineaNewRate (alineaRateNoDetectors n) (getDownstreamOccupancy [] [])

/-! ## Tick failures in the episode driver
(`SumoEnv.simulation_step`, sumo_env.py:319-326, and the tick loops of
`RLController.step`, rl_controller_macro_lane.py:230-246) -/

/-- Outcome of one `traci.simulationStep()` call. -/
inductive TickResult where
  | ok
  | transportFailure
deriving DecidableEq, Repr

/-- `SumoEnv.simulation_step` (sumo_env.py:319-326): a `TraCIException`
raised by the tick is caught, printed, and re-raised (`raise e`), so the
call either succeeds or raises the transport error. -/
def simulation_step : TickResult → Except Unit Unit
  | .ok => .ok ()
  | .transportFailure => .error ()

/-- One tick loop of `RLController.step` (rl_controller_macro_lane.py:230-233
and 243-246): each iteration breaks when `is_simulation_end()` holds
(modelled as exhaustion of the scheduled tick outcomes) and otherwise calls
`simulation_step()`; no handler surrounds the call, so a raised transport
error aborts the loop and propagates. -/
def runPhaseTicks : ℕ → List TickResult → Except Unit (List TickResult)
  | 0, sched => .ok sched
  | _ + 1, [] => .ok []
  | n + 1, t :: rest =>
    match simulation_step t with
    | .error e => .error e
    | .ok _ => runPhaseTicks n rest

/-- The tick-driving portion of `RLController.step`: the green-segment loop
followed by the red-segment loop, with the raised error of either loop
propagating out of `step` (there is no `try`/`except` in
rl_controller_macro_lane.py:209-291 nor in the `CustomEnvWrapper.step`
caller). -/
def rlStepDrive (greenSteps redSteps : ℕ) (sched : List TickResult) :
    Except Unit (List TickResult) :=
  match runPhaseTicks greenSteps sched with
  | .error e => .error e
  | .ok s1 => runPhaseTicks redSteps s1

/-! ## Spec-side refinement formulas

The following two definitions transcribe the spec's ALINEA formulas verbatim
(spec §4.3), to be compared with the code-derived `alineaUpdate`:
`rate(k) = clip(rate(k-1) + Kr·(Occ_crit − Occ(k-1)), rate_min, rate_max)` and
`green(k) = clip(rate(k)·cycle_len/3600 / sat_flow, green_min, cycle_len − red_min)`. -/

/-- Rate formula as written in the spec, using the repository's own `clip`. -/
def alineaRateSpecFormula (rate occ : ℚ) : ℚ :=
  clip MIN_METERING_RATE_VPH MAX_METERING_RATE_VPH
    (rate + KR * (CRITICAL_OCCUPANCY_PERCENT - occ))

/-- Green-time formula as written in the spec, using the repository's own
`clip`. -/
def alineaGreenSpecFormula (rate : ℚ) : ℚ :=
  clip MIN_GREEN_TIME_SEC (CYCLE_LENGTH_SEC - MIN_RED_TIME_SEC)
    (rate * CYCLE_LENGTH_SEC / 3600 / RAMP_SATURATION_FLOW_VPS)

/-! # Theorems -/

/-- Values clamped by `max(lo, min(x, hi))` (the Python clamp idiom of
baselines.py:223,234) lie in `[lo, hi]` when `lo ≤ hi`. -/
theorem clamp_mem (lo hi x : ℚ) (h : lo ≤ hi) :
    lo ≤ max lo (min x hi) ∧ max lo (min x hi) ≤ hi :=
  ⟨le_max_left _ _, max_le h (min_le_right _ _)⟩

/-- Values clamped by `np.clip` lie in `[lo, hi]` when `lo ≤ hi`. -/
theorem npClip_mem (x lo hi : ℚ) (h : lo ≤ hi) :
    lo ≤ npClip x lo hi ∧ npClip x lo hi ≤ hi :=
  ⟨le_min h (le_max_left _ _), min_le_left _ _⟩

/-- C1 (counterexample): with rate 990, lag term O(k-2) = 16.5 and measured
occupancy 0, the unclipped PI-ALINEA update is 2310, which saturates above
`MAX_METERING_RATE_VPH = 1800`; yet the decision advances the stored
previous occupancy from 16.5 to 0, contradicting the claimed anti-windup
hold of the lag term. -/
theorem pialinea_antiwindup_counterexample :
    piAlineaSaturates ⟨990, 33/2, 3, 37⟩ 0 ∧
      (piAlineaUpdate ⟨990, 33/2, 3, 37⟩ 0).prev_measured_downstream_occ ≠ 33/2 := by
  constructor
  · unfold piAlineaSaturates piAlineaRateChange KP KI CRITICAL_OCCUPANCY_PERCENT
      MIN_METERING_RATE_VPH MAX_METERING_RATE_VPH
    norm_num
  · unfold piAlineaUpdate
    norm_num

/-- C1 (amended): every PI-ALINEA decision unconditionally advances the lag
term — the stored previous occupancy is set to the newly measured occupancy
O(k-1), whether or not the unclipped rate update saturates; only the rate
itself is clipped (baselines.py:382 runs on every decision). -/
theorem pialinea_lag_term_always_advances (s : PiAlineaState) (currentOcc : ℚ) :
    (piAlineaUpdate s currentOcc).prev_measured_downstream_occ = currentOcc := rfl

/-- The code's ALINEA rate update equals the spec's clip formula. -/
theorem alineaNewRate_eq_spec (rate occ : ℚ) :
    alineaNewRate rate occ = alineaRateSpecFormula rate occ := by
  unfold alineaNewRate alineaRateSpecFormula clip
  rw [if_pos (by norm_num [MIN_METERING_RATE_VPH, MAX_METERING_RATE_VPH])]
  rw [min_comm]

/-- The code's ALINEA green-time computation equals the spec's clip formula. -/
theorem alineaGreenTime_eq_spec (rate : ℚ) :
    alineaGreenTime rate = alineaGreenSpecFormula rate := by
  unfold alineaGreenTime alineaGreenSpecFormula clip
  norm_num [RAMP_SATURATION_FLOW_VPS, MIN_GREEN_TIME_SEC, CYCLE_LENGTH_SEC,
    MIN_RED_TIME_SEC]
  rw [min_comm]
  ring_nf

/-- C2: every ALINEA decision computes
`rate(k) = clip(rate(k-1) + Kr·(Occ_crit − Occ(k-1)), rate_min, rate_max)`
and `green(k) = clip(rate(k)·cycle_len/3600 / sat_flow, green_min,
cycle_len − red_min)`; moreover the reset rate `(180 + 1800)/2` is 990 and
updating from rate 990 at measured occupancy 16.5 (zero error) yields 990
again. -/
theorem alinea_update_matches_spec :
    (∀ (s : AlineaState) (occ : ℚ),
        (alineaUpdate s occ).current_metering_rate_vph =
          alineaRateSpecFormula s.current_metering_rate_vph occ ∧
        (alineaUpdate s occ).current_green_time_sec_alinea =
          alineaGreenSpecFormula (alineaRateSpecFormula s.current_metering_rate_vph occ)) ∧
    (MIN_METERING_RATE_VPH + MAX_METERING_RATE_VPH) / 2 = 990 ∧
    alineaNewRate 990 (33/2) = 990 := by
  refine ⟨fun s occ => ?_, by norm_num [MIN_METERING_RATE_VPH, MAX_METERING_RATE_VPH], ?_⟩
  · simp only [alineaUpdate]
    rw [alineaNewRate_eq_spec, alineaGreenTime_eq_spec]
    exact ⟨rfl, rfl⟩
  · unfold alineaNewRate KR CRITICAL_OCCUPANCY_PERCENT MIN_METERING_RATE_VPH
      MAX_METERING_RATE_VPH
    norm_num

/-- C3 (counterexample): a transport failure on the first tick of the green
segment makes the driver's `step` raise the transport error to its caller
instead of returning a `done = true` result. -/
theorem tick_failure_propagates_counterexample :
    rlStepDrive 1 0 [TickResult.transportFailure] = Except.error () := rfl

/-- A tick loop whose schedule starts with successful ticks and then a
transport failure within the loop's iteration budget raises the error: the
failing `simulation_step` call aborts the loop of
rl_controller_macro_lane.py:230-233 / 243-246 with no handler. -/
theorem runPhaseTicks_hits_failure (n : ℕ) (pre rest : List TickResult)
    (hok : ∀ t ∈ pre, t = TickResult.ok) (hlen : pre.length < n) :
    runPhaseTicks n (pre ++ TickResult.transportFailure :: rest) = Except.error () := by
  induction pre generalizing n with
  | nil =>
      obtain ⟨m, rfl⟩ : ∃ m, n = m + 1 := ⟨n - 1, by omega⟩
      rfl
  | cons t pre' ih =>
      obtain ⟨m, rfl⟩ : ∃ m, n = m + 1 := ⟨n - 1, by omega⟩
      have ht : t = TickResult.ok := hok t (List.mem_cons_self t pre')
      subst ht
      simp only [List.cons_append, runPhaseTicks, simulation_step]
      exact ih m (fun t' ht' => hok t' (List.mem_cons_of_mem _ ht'))
        (by simp only [List.length_cons] at hlen; omega)

/-- A tick loop whose iteration budget is covered by successful ticks
completes normally, consuming exactly its budget from the schedule. -/
theorem runPhaseTicks_ok_run (n : ℕ) (pre rest : List TickResult)
    (hok : ∀ t ∈ pre, t = TickResult.ok) (hlen : n ≤ pre.length) :
    runPhaseTicks n (pre ++ rest) = Except.ok (pre.drop n ++ rest) := by
  induction n generalizing pre with
  | zero => rfl
  | succ m ih =>
      cases pre with
      | nil => simp at hlen
      | cons t pre' =>
          have ht : t = TickResult.ok := hok t (List.mem_cons_self t pre')
          subst ht
          simp only [List.cons_append, runPhaseTicks, simulation_step, List.drop_succ_cons]
          exact ih pre' (fun t' ht' => hok t' (List.mem_cons_of_mem _ ht'))
            (Nat.le_of_succ_le_succ hlen)

/-- C3 (amended): whenever any simulator tick of a control cycle raises a
transport failure — after any number of successful ticks, in the green
segment or in the red segment (`pre.length < g + r` places the first failure
within the cycle's tick budget) — the driver stops ticking for the remaining
segment only because the exception aborts the tick loops, and the raw
transport error propagates out of `step`: no `(observation, reward, done)`
result is returned on that call (`simulation_step` re-raises at
sumo_env.py:326 and no caller catches). -/
theorem tick_failure_aborts_and_propagates (g r : ℕ) (pre rest : List TickResult)
    (hok : ∀ t ∈ pre, t = TickResult.ok) (hlen : pre.length < g + r) :
    rlStepDrive g r (pre ++ TickResult.transportFailure :: rest) = Except.error () := by
  unfold rlStepDrive
  by_cases hg : pre.length < g
  · rw [runPhaseTicks_hits_failure g pre rest hok hg]
  · push_neg at hg
    rw [runPhaseTicks_ok_run g pre (TickResult.transportFailure :: rest) hok hg]
    exact runPhaseTicks_hits_failure r (pre.drop g) rest
      (fun t' ht' => hok t' (List.drop_subset g pre ht'))
      (by rw [List.length_drop]; omega)

/-- Witness for C3 (amended): three successful ticks fill the two-step green
segment and the first red step; the failure on the fourth tick — inside the
red-segment loop — propagates out of the cycle drive. -/
theorem tick_failure_aborts_and_propagates_witness :
    rlStepDrive 2 3 ([TickResult.ok, TickResult.ok, TickResult.ok] ++
      TickResult.transportFailure :: []) = Except.error () :=
  tick_failure_aborts_and_propagates 2 3
    [TickResult.ok, TickResult.ok, TickResult.ok] []
    (by decide) (by norm_num)

/-- C4: after every ALINEA and every PI-ALINEA controller update, the stored
metering rate lies in `[MIN_METERING_RATE_VPH, MAX_METERING_RATE_VPH]`
(180 to 1800 vph) and the computed green time lies in
`[MIN_GREEN_TIME_SEC, CYCLE_LENGTH_SEC]`. -/
theorem controller_updates_within_bounds (s : AlineaState) (p : PiAlineaState) (occ : ℚ) :
    (MIN_METERING_RATE_VPH ≤ (alineaUpdate s occ).current_metering_rate_vph ∧
      (alineaUpdate s occ).current_metering_rate_vph ≤ MAX_METERING_RATE_VPH ∧
      MIN_GREEN_TIME_SEC ≤ (alineaUpdate s occ).current_green_time_sec_alinea ∧
      (alineaUpdate s occ).current_green_time_sec_alinea ≤ CYCLE_LENGTH_SEC) ∧
    (MIN_METERING_RATE_VPH ≤ (piAlineaUpdate p occ).current_metering_rate_vph ∧
      (piAlineaUpdate p occ).current_metering_rate_vph ≤ MAX_METERING_RATE_VPH ∧
      MIN_GREEN_TIME_SEC ≤ (piAlineaUpdate p occ).current_green_time_sec ∧
      (piAlineaUpdate p occ).current_green_time_sec ≤ CYCLE_LENGTH_SEC) := by
  constructor
  · simp only [alineaUpdate, alineaNewRate, alineaGreenTime]
    have h1 := clamp_mem MIN_METERING_RATE_VPH MAX_METERING_RATE_VPH
      (s.current_metering_rate_vph + KR * (CRITICAL_OCCUPANCY_PERCENT - occ))
      (by norm_num [MIN_METERING_RATE_VPH, MAX_METERING_RATE_VPH])
    refine ⟨h1.1, h1.2, ?_⟩
    have h2 := clamp_mem MIN_GREEN_TIME_SEC (CYCLE_LENGTH_SEC - MIN_RED_TIME_SEC)
      ((max MIN_METERING_RATE_VPH
          (min (s.current_metering_rate_vph + KR * (CRITICAL_OCCUPANCY_PERCENT - occ))
            MAX_METERING_RATE_VPH)) * (CYCLE_LENGTH_SEC / 3600) / RAMP_SATURATION_FLOW_VPS)
      (by norm_num [MIN_GREEN_TIME_SEC, CYCLE_LENGTH_SEC, MIN_RED_TIME_SEC])
    rw [if_neg (by norm_num [RAMP_SATURATION_FLOW_VPS])]
    exact ⟨h2.1, le_trans h2.2 (by norm_num [CYCLE_LENGTH_SEC, MIN_RED_TIME_SEC])⟩
  · simp only [piAlineaUpdate]
    have h1 := npClip_mem
      (p.current_metering_rate_vph + piAlineaRateChange p.prev_measured_downstream_occ occ)
      MIN_METERING_RATE_VPH MAX_METERING_RATE_VPH
      (by norm_num [MIN_METERING_RATE_VPH, MAX_METERING_RATE_VPH])
    refine ⟨h1.1, h1.2, ?_⟩
    rw [if_neg (by norm_num [RAMP_SATURATION_FLOW_VPS])]
    have h2 := npClip_mem
      ((npClip (p.current_metering_rate_vph +
          piAlineaRateChange p.prev_measured_downstream_occ occ)
          MIN_METERING_RATE_VPH MAX_METERING_RATE_VPH) * (CYCLE_LENGTH_SEC / 3600) /
        RAMP_SATURATION_FLOW_VPS)
      MIN_GREEN_TIME_SEC (CYCLE_LENGTH_SEC - MIN_RED_TIME_SEC)
      (by norm_num [MIN_GREEN_TIME_SEC, CYCLE_LENGTH_SEC, MIN_RED_TIME_SEC])
    exact ⟨h2.1, le_trans h2.2 (by norm_num [CYCLE_LENGTH_SEC, MIN_RED_TIME_SEC])⟩

/-- Each entry of the green-time action menu, padded with the driver's red
remainder, fills the 40 s cycle exactly. -/
theorem rl_cycle_aux (j : ℕ) (hj : j ≤ 7) :
    green_time_actions_sec.getD j 0 +
      rlRedTime (green_time_actions_sec.getD j 0) = CYCLE_LENGTH_SEC := by
  interval_cases j <;>
    norm_num [green_time_actions_sec, rlRedTime, CYCLE_LENGTH_SEC, List.getD]

/-- C5: for every control cycle — whether the green time comes from the
learned policy's action menu (any action index, including out-of-range ones
that get clamped) or from the ALINEA / PI-ALINEA controllers — the chosen
green duration plus the chosen red duration equals the configured cycle
length of 40 s (exactly, in the rational model). -/
theorem green_plus_red_equals_cycle (i : ℕ) (s : AlineaState) (p : PiAlineaState) (occ : ℚ) :
    rlChosenGreen i + rlRedTime (rlChosenGreen i) = CYCLE_LENGTH_SEC ∧
    (alineaUpdate s occ).current_green_time_sec_alinea +
      (alineaUpdate s occ).current_red_time_sec_alinea = CYCLE_LENGTH_SEC ∧
    (piAlineaUpdate p occ).current_green_time_sec +
      (piAlineaUpdate p occ).current_red_time_sec = CYCLE_LENGTH_SEC := by
  refine ⟨?_, by simp only [alineaUpdate]; ring, by simp only [piAlineaUpdate]; ring⟩
  have hj : clampActionIndex i ≤ 7 := min_le_right _ _
  exact rl_cycle_aux (clampActionIndex i) hj

/-- C6: the spillback penalty is 0 for every queue at or below 90% of the
maximum queue, equals the linear ramp `-(q − 0.9·max)/(0.1·max)` between 90%
and 100%, and on the concrete points of the claim (max_queue = 25):
queue 25 ↦ −1, queue 22.5 ↦ 0, queue 0 ↦ 0. -/
theorem spillback_penalty_shape (q : ℚ) :
    (q ≤ (9/10) * MAX_RAMP_QUEUE_VEH → penalty_spillback MAX_RAMP_QUEUE_VEH q = 0) ∧
    ((9/10) * MAX_RAMP_QUEUE_VEH < q → q ≤ MAX_RAMP_QUEUE_VEH →
      penalty_spillback MAX_RAMP_QUEUE_VEH q =
        -((q - (9/10) * MAX_RAMP_QUEUE_VEH) / ((1/10) * MAX_RAMP_QUEUE_VEH))) ∧
    penalty_spillback MAX_RAMP_QUEUE_VEH 25 = -1 ∧
    penalty_spillback MAX_RAMP_QUEUE_VEH (45/2) = 0 ∧
    penalty_spillback MAX_RAMP_QUEUE_VEH 0 = 0 := by
  refine ⟨?_, ?_, ?_, ?_, ?_⟩
  · intro hq
    unfold penalty_spillback
    rw [if_neg (by simp only [MAX_RAMP_QUEUE_VEH] at hq ⊢; linarith)]
  · intro h1 h2
    simp only [MAX_RAMP_QUEUE_VEH] at h1 h2 ⊢
    unfold penalty_spillback npClip
    norm_num
    rw [if_pos (by linarith)]
    rw [max_eq_right (div_nonneg (by linarith) (by norm_num))]
    rw [min_eq_right ((div_le_one (by norm_num)).mpr (by linarith))]
  · unfold penalty_spillback npClip MAX_RAMP_QUEUE_VEH
    norm_num
  · unfold penalty_spillback npClip MAX_RAMP_QUEUE_VEH
    norm_num
  · unfold penalty_spillback npClip MAX_RAMP_QUEUE_VEH
    norm_num

/-- Witness for C6: a queue of 10 is below the 90% threshold and is not
penalized; a queue of 24 sits on the linear ramp. -/
theorem spillback_penalty_shape_witness :
    penalty_spillback MAX_RAMP_QUEUE_VEH 10 = 0 ∧
      penalty_spillback MAX_RAMP_QUEUE_VEH 24 =
        -((24 - (9/10) * MAX_RAMP_QUEUE_VEH) / ((1/10) * MAX_RAMP_QUEUE_VEH)) :=
  ⟨(spillback_penalty_shape 10).1 (by norm_num [MAX_RAMP_QUEUE_VEH]),
    (spillback_penalty_shape 24).2.1 (by norm_num [MAX_RAMP_QUEUE_VEH])
      (by norm_num [MAX_RAMP_QUEUE_VEH])⟩

/-- When every successfully queried loop reports zero vehicles, the
flow-weighted accumulator of sumo_env.py:464-472 never fires and both totals
stay zero. -/
theorem fwms_totals_all_zero_flow (readings : List (Option LoopLastStep))
    (h : ∀ r ∈ readings, ∀ l, r = some l → l.flow = 0) :
    fwms_totals readings = (0, 0) := by
  unfold fwms_totals
  induction readings with
  | nil => rfl
  | cons r rest ih =>
      have hstep : ∀ l, r = some l → l.flow = 0 := h r (List.mem_cons_self r rest)
      have hrest : ∀ r' ∈ rest, ∀ l, r' = some l → l.flow = 0 :=
        fun r' hr' => h r' (List.mem_cons_of_mem r hr')
      rw [List.foldl_cons]
      cases r with
      | none => exact ih hrest
      | some l =>
          have hflow : l.flow = 0 := hstep l rfl
          simp only [hflow, lt_self_iff_false, false_and, if_false]
          exact ih hrest

/-- C7: aggregating an empty DetectorGroup deterministically returns flow 0,
occupancy 0 and flow-weighted mean speed 0 (for any interval length,
including non-positive ones); and the flow-weighted mean speed is also 0
whenever no vehicles are observed across the group's loops. -/
theorem empty_group_aggregation (d : ℚ) (readings : List (Option LoopLastStep)) :
    get_loops_flow_interval [] d = 0 ∧
    get_loops_occupancy_interval [] = 0 ∧
    get_loops_flow_weigthed_mean_speed [] = 0 ∧
    ((∀ r ∈ readings, ∀ l, r = some l → l.flow = 0) →
      get_loops_flow_weigthed_mean_speed readings = 0) := by
  refine ⟨by simp [get_loops_flow_interval], by simp [get_loops_occupancy_interval],
    by simp [get_loops_flow_weigthed_mean_speed], fun h => ?_⟩
  unfold get_loops_flow_weigthed_mean_speed
  rw [fwms_totals_all_zero_flow readings h]
  simp

/-- Witness for C7: a three-loop group in which the middle query fails and
both successful loops observe zero vehicles (one with the "no vehicle" speed
of −1) aggregates to mean speed 0. -/
theorem empty_group_aggregation_witness :
    get_loops_flow_weigthed_mean_speed
      [some { flow := 0, speed := 5 }, none, some { flow := 0, speed := -1 }] = 0 := by
  refine (empty_group_aggregation 40
    [some { flow := 0, speed := 5 }, none, some { flow := 0, speed := -1 }]).2.2.2 ?_
  intro r hr l hl
  subst hl
  simp only [List.mem_cons, List.not_mem_nil, or_false] at hr
  rcases hr with h | h | h
  · rw [Option.some_inj] at h
    rw [h]
  · exact absurd h (by simp)
  · rw [Option.some_inj] at h
    rw [h]

/-- C8 (counterexample): for a ramp meter whose active phase is already 0,
re-issuing phase 0 through `set_phase` increments the count of forwarded
simulator phase-set commands — the re-issue is not a no-op in simulator
calls. -/
theorem set_phase_reissue_counterexample :
    ({ phase := 0, setPhaseCalls := 0 } : TrafficLight).phase = 0 ∧
      (set_phase { phase := 0, setPhaseCalls := 0 } 0).setPhaseCalls ≠
        ({ phase := 0, setPhaseCalls := 0 } : TrafficLight).setPhaseCalls :=
  ⟨rfl, by simp [set_phase]⟩

/-- C8 (amended): every `set_phase` call forwards exactly one phase-set
command to the simulator, even when the requested phase is already active;
the operation is idempotent only in the resulting phase state, not in the
number of simulator calls. -/
theorem set_phase_always_issues_command (tl : TrafficLight) (p : ℤ) :
    (set_phase tl p).setPhaseCalls = tl.setPhaseCalls + 1 ∧ (set_phase tl p).phase = p :=
  ⟨rfl, rfl⟩

/-- C9: the static `clip(min_clip, max_clip, x)` helper returns a value in
`[min_clip, max_clip]` whenever `min_clip < max_clip`, but returns `x`
unchanged whenever `min_clip ≥ max_clip` — so `clip 5 5 10 = 10`, which lies
outside the requested bounds `[5, 5]` (indeed `10 ≰ 5`). -/
theorem clip_bounds_and_degenerate (a b x : ℚ) :
    (a < b → a ≤ clip a b x ∧ clip a b x ≤ b) ∧
    (¬ a < b → clip a b x = x) ∧
    clip 5 5 10 = 10 ∧ ¬ ((5:ℚ) ≤ 10 ∧ (10:ℚ) ≤ 5) := by
  refine ⟨fun h => ?_, fun h => ?_, by norm_num [clip], by norm_num⟩
  · unfold clip
    rw [if_pos h]
    exact ⟨le_max_left _ _, max_le h.le (min_le_left _ _)⟩
  · unfold clip
    rw [if_neg h]

/-- Witness for C9: proper bounds 0 < 1 clamp 7 into the interval, and
degenerate bounds 5 ≥ 3 return the argument 9 unchanged. -/
theorem clip_bounds_witness :
    ((0:ℚ) ≤ clip 0 1 7 ∧ clip 0 1 7 ≤ 1) ∧ clip 5 3 9 = 9 :=
  ⟨(clip_bounds_and_degenerate 0 1 7).1 (by norm_num),
    (clip_bounds_and_degenerate 5 3 9).2.1 (by norm_num)⟩

/-- C10: with no downstream detectors, every occupancy query substitutes the
critical occupancy 16.5 (whatever readings would have been available), the
resulting occupancy error term is zero, the reset midpoint
`(MIN + MAX)/2` is 990 vph, and after any number of ALINEA decisions the
metering rate still equals 990 vph. -/
theorem no_detector_rate_stays_at_midpoint (readings : List (Option ℚ)) (n : ℕ) :
    getDownstreamOccupancy [] readings = CRITICAL_OCCUPANCY_PERCENT ∧
    KR * (CRITICAL_OCCUPANCY_PERCENT - getDownstreamOccupancy [] readings) = 0 ∧
    (MIN_METERING_RATE_VPH + MAX_METERING_RATE_VPH) / 2 = 990 ∧
    alineaRateNoDetectors n = 990 := by
  refine ⟨rfl, by simp [getDownstreamOccupancy],
    by norm_num [MIN_METERING_RATE_VPH, MAX_METERING_RATE_VPH], ?_⟩
  induction n with
  | zero =>
      unfold alineaRateNoDetectors
      norm_num [MIN_METERING_RATE_VPH, MAX_METERING_RATE_VPH]
  | succ k ih =>
      unfold alineaRateNoDetectors
      rw [ih]
      unfold getDownstreamOccupancy
      simp only [List.isEmpty_nil, if_pos]
      unfold alineaNewRate KR CRITICAL_OCCUPANCY_PERCENT MIN_METERING_RATE_VPH
        MAX_METERING_RATE_VPH
      norm_num

end RMC
